import Mathlib

/-!
Verification model of the HighEagle engine (`src/HighEagle.jinja.py`).

The Python code is embedded shallowly: objects become Lean structures,
Python dicts become association lists in insertion order (CPython `d[k] = v`
replaces the value in place when the key exists, otherwise appends),
exceptions become `Except PyError`, and object identity (Python `is` /
default `==`) is represented by a numeric `id` field mirroring the object's
identity, with `parent` pointers storing the owner's id.  Fields and
sections of the generated tag classes that no theorem below inspects are
omitted; they would be inert record components.
-/

namespace HighEagle

deriving instance DecidableEq for Except

/-- The exceptions the source can raise: its two exception classes plus the
Python built-ins its dynamic code can hit. -/
inductive PyError where
  | highEagle (msg : String)
  | eagleFormat (msg : String)
  | valueError (msg : String)
  | attributeError (msg : String)
  | assertionError
deriving Repr, DecidableEq

/-- A value stored in a parsed attribute slot.  Python floats are kept as
their accepted literal text: no theorem below evaluates float arithmetic. -/
inductive PyVal where
  | str (s : String)
  | int (n : Int)
  | bool (b : Bool)
  | float (lit : String)
deriving Repr, DecidableEq

/-- Python `str(v)` for the values above (used by `unparseByType` for the
int and float kinds). -/
def pyValStr : PyVal → String
  | .str s => s
  | .int n => toString n
  | .bool b => if b then "True" else "False"
  | .float lit => lit

/-- Python truthiness for the values above (`if v:`). The float case is
never exercised by the source's typed call sites. -/
def pyTruthy : PyVal → Bool
  | .str s => s ≠ ""
  | .int n => n ≠ 0
  | .bool b => b
  | .float lit => lit ≠ "0.0"

/-- Python `str(x)` where `x` is a string or `None` (e.g. `str(self.filename)`). -/
def pyStr : Option String → String
  | none => "None"
  | some s => s

/-- `d[k] = v` on a Python dict modelled as an association list: replace in
place when the key is present, append otherwise. -/
def dictInsert {κ α : Type} [DecidableEq κ] : List (κ × α) → κ → α → List (κ × α)
  | [], k, v => [(k, v)]
  | (k0, v0) :: rest, k, v =>
    if k0 = k then (k, v) :: rest else (k0, v0) :: dictInsert rest k v

/-- `d.get(k)` / `d[k]` read on a Python dict modelled as an association list. -/
def lookupD {κ α : Type} [DecidableEq κ] : List (κ × α) → κ → Option α
  | [], _ => none
  | (k0, v0) :: rest, k => if k0 = k then some v0 else lookupD rest k

/-- Python `int(s)`: decimal integer conversion, `ValueError` on anything else. -/
def pyInt (s : String) : Except PyError Int :=
  match s.toInt? with
  | some n => .ok n
  | none => .error (.valueError ("invalid literal for int() with base 10: " ++ s))

/-- Whether a character list is one or more decimal digits. -/
def allDigits (l : List Char) : Bool :=
  decide (l ≠ []) && l.all Char.isDigit

/-- Mantissa of a float literal: digits with an optional dot, at least one digit. -/
def floatMantissa (l : List Char) : Bool :=
  match l.splitOn '.' with
  | [a] => allDigits a
  | [a, b] => (allDigits a && (b.all Char.isDigit)) || (a.all Char.isDigit && allDigits b)
  | _ => false

/-- Body of a float literal after the sign: mantissa with optional exponent. -/
def floatBody (l : List Char) : Bool :=
  match l.splitOn 'e' with
  | [m] =>
    match l.splitOn 'E' with
    | [m2] => floatMantissa m2 ∧ floatMantissa m
    | [m2, e2] => floatMantissa m2 && (allDigits e2 || (e2.head? = some '-' && allDigits e2.tail) || (e2.head? = some '+' && allDigits e2.tail))
    | _ => false
  | [m, e] => floatMantissa m && (allDigits e || (e.head? = some '-' && allDigits e.tail) || (e.head? = some '+' && allDigits e.tail))
  | _ => false

/-- Acceptance test for Python `float(s)` on the literals the file format
produces (optional sign, digits, dot, exponent). -/
def isFloatLit (s : String) : Bool :=
  match s.toList with
  | '-' :: rest => floatBody rest
  | '+' :: rest => floatBody rest
  | l => floatBody l

/-- Python `float(s)`: keeps the accepted literal, `ValueError` otherwise. -/
def pyFloat (s : String) : Except PyError PyVal :=
  if isFloatLit s then .ok (.float s)
  else .error (.valueError ("could not convert string to float: " ++ s))

/-- A `<layer>` node: `(number, name)` plus the base-class bookkeeping. -/
structure Layer where
  idn : Nat
  parent : Option Nat := none
  number : Int
  name : String
deriving Repr, DecidableEq

/-- The layer-table state of an `EagleFile`: `filename`, the number index
`layers` and the name index `layersByName` (`EagleFile.__init__`). -/
structure EagleFile where
  idn : Nat
  filename : Option String := none
  layers : List (Int × Layer) := []
  layersByName : List (String × Layer) := []
deriving Repr, DecidableEq

/-- `EagleFile.add_layer`: writes the layer into both indices (plain dict
assignment, no conflict check) and reparents it to the file. -/
def EagleFile.add_layer (f : EagleFile) (l : Layer) : EagleFile :=
  let l2 : Layer := { l with parent := some f.idn }
  { f with layers := dictInsert f.layers l.number l2,
           layersByName := dictInsert f.layersByName l.name l2 }

/-- `EagleFile.layer_number_to_name`: name of the layer with this number, or
`HighEagleError` naming the file. -/
def EagleFile.layer_number_to_name (f : EagleFile) (num : Int) : Except PyError String :=
  match lookupD f.layers num with
  | some l => .ok l.name
  | none => .error (.highEagle ("No layer number " ++ toString num ++ " in " ++ pyStr f.filename))

/-- `EagleFile.layer_name_to_number`: number of the layer with this name, or
`HighEagleError` naming the file. -/
def EagleFile.layer_name_to_number (f : EagleFile) (name : String) : Except PyError Int :=
  match lookupD f.layersByName name with
  | some l => .ok l.number
  | none => .error (.highEagle ("No layer named '" ++ name ++ "' in " ++ pyStr f.filename))

/-- `parseByType(efp, attrType, s)`.  The caller's `efp` enters only through
`efp.get_file()` (passed here as `efpFile`, `none` when the ownership chain
does not reach an `EagleFile`) and through `str(efp)` in the bool error
message (passed as `efpStr`).  Accessing `.layer_number_to_name` on the
`None` returned by `get_file()` raises `AttributeError` before the raw
value is even converted.  The closing `assert r is not None` never fires:
every branch below yields a value when `s` is present. -/
def parseByType (efpFile : Option EagleFile) (efpStr : String) (attrType : String)
    (s : Option String) : Except PyError (Option PyVal) :=
  match s with
  | none => .ok none
  | some s =>
    if attrType = "str" then .ok (some (.str s))
    else if attrType = "int" then (pyInt s).map (fun n => some (.int n))
    else if attrType = "float" then (pyFloat s).map (fun v => some v)
    else if attrType = "bool" then
      if s.toUpper = "YES" then .ok (some (.bool true))
      else if s.toUpper = "NO" then .ok (some (.bool false))
      else .error (.highEagle ("Invalid eagle bool value '" ++ s ++ "' in child of " ++ efpStr))
    else if attrType = "constant_bool" then .ok (some (.bool (decide (s ≠ "no"))))
    else if attrType = "layer_string" then
      match efpFile with
      | none => .error (.attributeError "'NoneType' object has no attribute 'layer_number_to_name'")
      | some f =>
        match pyInt s with
        | .error e => .error e
        | .ok n => (f.layer_number_to_name n).map (fun nm => some (.str nm))
    else .error (.highEagle ("Unknown attr type '" ++ attrType ++ "'"))

/-- `unparseByType(efp, attrType, v)`, with `efp` entering as in
`parseByType`.  The layer branch first hits `AttributeError` on a detached
node, then `layer_name_to_number` asserts the value is a string; its result
is the layer's number.  The closing assert (skipped for `constant_bool`)
never fires: every other branch yields a value when `v` is present. -/
def unparseByType (efpFile : Option EagleFile) (_efpStr : String) (attrType : String)
    (v : Option PyVal) : Except PyError (Option PyVal) :=
  match v with
  | none => .ok none
  | some v =>
    if attrType = "str" then .ok (some v)
    else if attrType = "int" ∨ attrType = "float" then .ok (some (.str (pyValStr v)))
    else if attrType = "bool" then .ok (some (.str (if pyTruthy v then "yes" else "no")))
    else if attrType = "constant_bool" then
      .ok (if pyTruthy v then none else some (.str "no"))
    else if attrType = "layer_string" then
      match efpFile with
      | none => .error (.attributeError "'NoneType' object has no attribute 'layer_name_to_number'")
      | some f =>
        match v with
        | .str name => (f.layer_name_to_number name).map (fun n => some (.int n))
        | _ => .error .assertionError
    else .error (.highEagle ("Unknown attr type '" ++ attrType ++ "'"))

/-- A generic `EagleFilePart` for the base-class machinery: object identity,
the `parent` pointer, and the children its declared containers report
(`get_children`).  The concrete payload of a tag is irrelevant to the
base-class traversal, so only the ownership structure is kept. -/
inductive EFP : Type where
  | mk : Nat → Option Nat → List EFP → EFP

/-- Object identity of the part. -/
def EFP.idOf : EFP → Nat
  | .mk i _ _ => i

/-- The part's `parent` pointer (the owner's identity, or `None`). -/
def EFP.parentOf : EFP → Option Nat
  | .mk _ p _ => p

/-- The part's `get_children()` list. -/
def EFP.childrenOf : EFP → List EFP
  | .mk _ _ cs => cs

/-- Python `str(x)` of an optional id, as it appears in the mismatch message. -/
def optNatStr : Option Nat → String
  | none => "None"
  | some n => toString n

/-- The message of the `HighEagleError` raised by `check_sanity` on a parent
pointer mismatch, rendering each object by its identity. -/
def mismatchMsg (ownerId : Nat) (c : EFP) : String :=
  "Parent pointer mismatch.  Child = " ++ toString c.idOf ++ "; child.parent = "
    ++ optNatStr c.parentOf ++ "; Parent = " ++ toString ownerId

/-- The loop body of `EagleFilePart.check_sanity` run by the owner with
identity `i` over its children: raise on the first child whose `parent` is
not the owner, otherwise recurse into the child and continue. -/
def check_sanityList (i : Nat) : List EFP → Except PyError Unit
  | [] => .ok ()
  | EFP.mk ci cp ck :: cs =>
    if cp ≠ some i then .error (.highEagle (mismatchMsg i (EFP.mk ci cp ck)))
    else
      match check_sanityList ci ck with
      | .error e => .error e
      | .ok () => check_sanityList i cs

/-- `EagleFilePart.check_sanity`: recursive parent-pointer check from this part. -/
def EFP.check_sanity : EFP → Except PyError Unit
  | .mk i _ cs => check_sanityList i cs

/-- All (owner identity, child) pairs reachable below an owner with identity
`i` holding these children. -/
def edgesList (i : Nat) : List EFP → List (Nat × EFP)
  | [] => []
  | EFP.mk ci cp ck :: cs => (i, EFP.mk ci cp ck) :: (edgesList ci ck ++ edgesList i cs)

/-- All (owner identity, child) pairs of the tree under this part. -/
def EFP.edges : EFP → List (Nat × EFP)
  | .mk i _ cs => edgesList i cs

/-- A child with its `parent` pointer redirected (the assignment every
container `add_…` accessor performs). -/
def EFP.setParent (c : EFP) (i : Nat) : EFP :=
  .mk c.idOf (some i) c.childrenOf

/-- A generic container `add_…`: append the child to the owner's container
and set `child.parent = owner`. -/
def EFP.addChild (p c : EFP) : EFP :=
  .mk p.idOf p.parentOf (p.childrenOf ++ [c.setParent p.idOf])

/-- `EagleFile.from_file(filename, bestEffort)`.  The external XML parser and
DTD validator are collaborators outside the engine, so their outcomes enter
as parameters: `wellFormed` (did `ET.parse` succeed), `dtdValid` (did
`DTD.validate` pass), `diag` (the first entry of the validator's error log)
and `parsedTree` (the node tree the schema-driven `from_et` dispatch
builds).  The control flow — syntax error, validation in the two modes,
suffix dispatch, final recursive sanity check — is the source's. -/
def from_file (wellFormed dtdValid bestEffort : Bool) (filename diag : String)
    (parsedTree : EFP) : Except PyError EFP :=
  if ¬ wellFormed then
    .error (.eagleFormat ("Eagle file '" ++ filename
      ++ "' doesn't look like XML eagle file.  Try resaving with a newer version of eagle."))
  else if ¬ dtdValid ∧ ¬ bestEffort then
    .error (.eagleFormat ("Eagle file opened as '" ++ filename ++ "' is invalid on disk: " ++ diag))
  else if filename.takeRight 4 = ".sch" ∨ filename.takeRight 4 = ".brd"
      ∨ filename.takeRight 4 = ".lbr" then
    match parsedTree.check_sanity with
    | .error e => .error e
    | .ok () => .ok parsedTree
  else
    .error (.highEagle ("Unknown file suffix: '" ++ filename.takeRight 4 ++ "'"))

/-- `EagleFile.write(filename)`: sanity check, then validate; on validation
failure write the serialized tree to `filename + ".broken.xml"` and raise,
otherwise write it to `filename`.  `validates` is the external validator's
verdict and `diag` its first diagnostic; the result is the list of paths
written plus the exception raised, if any. -/
def write (t : EFP) (validates : Bool) (filename diag : String) :
    List String × Option PyError :=
  match t.check_sanity with
  | .error e => ([], some e)
  | .ok () =>
    if ¬ validates then
      ([filename ++ ".broken.xml"], some (.highEagle ("element tree does not validate" ++ diag)))
    else
      ([filename], none)

/-- An `<attribute>` node.  Geometry fields the theorems below never read
(`x`, `y`, `layer`, `ratio`, `font`, `rot`, `display`, `size`) are kept as
stored slots; `Attribute(name=...)` leaves them `None` and `in_library`
defaults to `True`. -/
structure Attribute where
  parent : Option Nat := none
  name : String
  value : Option PyVal := none
  constant : Option PyVal := none
  x : Option PyVal := none
  y : Option PyVal := none
  layer : Option PyVal := none
  ratio : Option PyVal := none
  font : Option PyVal := none
  rot : Option PyVal := none
  display : Option PyVal := none
  size : Option PyVal := none
  in_library : Bool := true
deriving Repr, DecidableEq

/-- A `<technology>` node: its name and its map of attributes keyed by name. -/
structure Technology where
  idn : Nat
  parent : Option Nat := none
  name : String
  attributes : List (String × Attribute) := []
deriving Repr, DecidableEq

/-- `Technology.add_attribute`: dict insert keyed by the attribute's name,
reparenting the attribute to the technology. -/
def Technology.add_attribute (t : Technology) (a : Attribute) : Technology :=
  { t with attributes := dictInsert t.attributes a.name { a with parent := some t.idn } }

/-- A `<connect>` entry of a device (content irrelevant to the theorems). -/
structure Connect where
  parent : Option Nat := none
  gate : String := ""
  pin : String := ""
  pad : String := ""
deriving Repr, DecidableEq

/-- The `technologies` slot of a `Device`.  The schema declares it a map
keyed by technology name, but `convertToExternal` constructs a `Device`
passing a Python *list*, which the generated constructor stores as-is; the
slot therefore carries either shape, and calling `.values()` on the list
shape raises `AttributeError`. -/
inductive TechsField where
  | dict (entries : List (String × Technology))
  | pylist (items : List Technology)
deriving Repr, DecidableEq

/-- `d.get_technologies().values()`: the technologies in map order, or the
`AttributeError` a Python list raises. -/
def TechsField.values : TechsField → Except PyError (List Technology)
  | .dict entries => .ok (entries.map (fun kt => kt.2))
  | .pylist _ => .error (.attributeError "'list' object has no attribute 'values'")

/-- All attribute names on all technologies of the slot (observation helper). -/
def TechsField.allAttrNames : TechsField → List String
  | .dict entries => (entries.map (fun kt => kt.2.attributes.map Prod.fst)).flatten
  | .pylist items => (items.map (fun t => t.attributes.map Prod.fst)).flatten

/-- A `<device>` node: name, optional package, connects list, technologies. -/
structure Device where
  idn : Nat
  parent : Option Nat := none
  name : String
  package : Option String := none
  connects : List Connect := []
  technologies : TechsField := .dict []
deriving Repr, DecidableEq

/-- A `<deviceset>` node: its name and its map of devices keyed by name. -/
structure Deviceset where
  idn : Nat
  parent : Option Nat := none
  name : String
  devices : List (String × Device) := []
deriving Repr, DecidableEq

/-- `add_device`: dict insert keyed by the device's name, reparenting it. -/
def Deviceset.add_device (ds : Deviceset) (d : Device) : Deviceset :=
  { ds with devices := dictInsert ds.devices d.name { d with parent := some ds.idn } }

/-- All attribute names anywhere below the deviceset (observation helper). -/
def Deviceset.allAttrNames (ds : Deviceset) : List String :=
  (ds.devices.map (fun kd => kd.2.technologies.allAttrNames)).flatten

/-- The `Attribute(name="_EXTERNAL_")` marker `convertToExternal` creates. -/
def markerAttribute : Attribute := { name := "_EXTERNAL_" }

/-- `Deviceset.convertToExternal`.  With devices present: take the first
value of the device map, remove every device (emptying the map and
clearing parents), rename the kept device to `""` with package
`"_EXTERNAL_"`, clear its connects, re-add it, then add the marker
attribute to each of its technologies.  With no devices: synthesize
`Device(name="", package="_EXTERNAL_", technologies=[Technology(name="")])`
— a Python list in a map-typed slot — add it, and then crash with
`AttributeError` when the marker loop calls `.values()` on that list.  The
result pairs the deviceset state when the call returns or raises with the
exception, if any. -/
def Deviceset.convertToExternal (ds : Deviceset) : Deviceset × Option PyError :=
  match ds.devices with
  | [] =>
    let t : Technology := { idn := 0, name := "" }
    let d : Device :=
      { idn := 0, name := "", package := some "_EXTERNAL_", technologies := .pylist [t] }
    (ds.add_device d, some (.attributeError "'list' object has no attribute 'values'"))
  | (_, d0) :: _ =>
    let d1 : Device :=
      { d0 with parent := none, name := "", package := some "_EXTERNAL_", connects := [] }
    let ds1 : Deviceset := { ds with devices := [] }
    match d1.technologies with
    | .pylist _ =>
      (ds1.add_device d1, some (.attributeError "'list' object has no attribute 'values'"))
    | .dict ts =>
      let d2 : Device :=
        { d1 with technologies :=
            TechsField.dict (ts.map (fun kt => (kt.1, kt.2.add_attribute markerAttribute))) }
      (ds1.add_device d2, none)

/-- A `<variant>` entry of a part (content irrelevant to the theorems). -/
structure Variant where
  parent : Option Nat := none
  name : String
deriving Repr, DecidableEq

/-- A `<part>` node.  The DTD requires `name`, `library`, `deviceset` and
`device`; `technology` and `value` are optional.  `attributes` and
`variants` are its child containers. -/
structure Part where
  idn : Nat
  parent : Option Nat := none
  name : String
  library : String
  deviceset : String
  device : String
  technology : Option String := none
  value : Option String := none
  attributes : List (String × Attribute) := []
  variants : List (String × Variant) := []
deriving Repr, DecidableEq

/-- A `<library>` node: its name and its map of devicesets. -/
structure Library where
  idn : Nat
  parent : Option Nat := none
  name : String
  devicesets : List (String × Deviceset) := []
deriving Repr, DecidableEq

/-- The schematic root a part's `get_root()` reaches: the `libraries` map. -/
structure Schematic where
  idn : Nat
  libraries : List (String × Library) := []
deriving Repr, DecidableEq

/-- `Part.find_library`: `self.get_root().libraries.get(self.library)`, with
the part's root passed explicitly. -/
def Part.find_library (root : Schematic) (p : Part) : Option Library :=
  lookupD root.libraries p.library

/-- `Part.find_deviceset`: `self.find_library().devicesets.get(self.deviceset)`;
attribute access on a `None` library raises. -/
def Part.find_deviceset (root : Schematic) (p : Part) : Except PyError (Option Deviceset) :=
  match Part.find_library root p with
  | none => .error (.attributeError "'NoneType' object has no attribute 'devicesets'")
  | some lib => .ok (lookupD lib.devicesets p.deviceset)

/-- `Part.find_device`: `self.find_deviceset().devices.get(self.device)`. -/
def Part.find_device (root : Schematic) (p : Part) : Except PyError (Option Device) :=
  match Part.find_deviceset root p with
  | .error e => .error e
  | .ok none => .error (.attributeError "'NoneType' object has no attribute 'devices'")
  | .ok (some ds) => .ok (lookupD ds.devices p.device)

/-- `Part.find_technology`: `self.find_device().technologies.get(self.technology)`;
`dict.get(None)` is `None` when the part has no technology key. -/
def Part.find_technology (root : Schematic) (p : Part) : Except PyError (Option Technology) :=
  match Part.find_device root p with
  | .error e => .error e
  | .ok none => .error (.attributeError "'NoneType' object has no attribute 'technologies'")
  | .ok (some d) =>
    match d.technologies with
    | .dict entries =>
      match p.technology with
      | none => .ok none
      | some t => .ok (lookupD entries t)
    | .pylist _ => .error (.attributeError "'list' object has no attribute 'get'")

/-- The parent pointers of the part's children, as `get_children` reports
them (`<attribute>` and `<variant>` are EMPTY elements, so the recursive
part of the base-class check reduces to these comparisons). -/
def Part.childParents (p : Part) : List (Option Nat) :=
  p.attributes.map (fun kv => kv.2.parent) ++ p.variants.map (fun kv => kv.2.parent)

/-- The library name interpolated into the deviceset/device error messages
(`self.find_library().name`; the call sites guarantee the library resolved). -/
def Part.libName (root : Schematic) (p : Part) : String :=
  match Part.find_library root p with
  | some lib => lib.name
  | none => ""

/-- The deviceset name interpolated into the device error message
(`self.find_deviceset().name`; the call site guarantees it resolved). -/
def Part.dsName (root : Schematic) (p : Part) : String :=
  match Part.find_deviceset root p with
  | .ok (some ds) => ds.name
  | _ => ""

/-- `Part.check_sanity`: each `try/assert/except` pair in turn — library,
deviceset, device — raising `HighEagleError` naming the part and the
missing key, then the base-class recursive parent check over the part's
children.  The `technology` key is never consulted. -/
def Part.check_sanity (root : Schematic) (p : Part) : Except PyError Unit :=
  if (Part.find_library root p).isNone then
    .error (.highEagle ("Library '" ++ p.library ++ "' missing for " ++ p.name))
  else
    match Part.find_deviceset root p with
    | .error _ | .ok none =>
      .error (.highEagle ("DeviceSet '" ++ Part.libName root p ++ ":" ++ p.deviceset
        ++ "' missing for " ++ p.name))
    | .ok (some _) =>
      match Part.find_device root p with
      | .error _ | .ok none =>
        .error (.highEagle ("Device '" ++ Part.libName root p ++ ":" ++ Part.dsName root p
          ++ ":" ++ p.device ++ "' missing for " ++ p.name))
      | .ok (some _) =>
        if p.childParents.all (fun q => q = some p.idn) then .ok ()
        else .error (.highEagle "Parent pointer mismatch in part children")

/-- Mutual consistency of the two layer indices: every entry of either index
is registered in the other under the layer's own number/name. -/
def EagleFile.consistent (f : EagleFile) : Prop :=
  (∀ kv ∈ f.layers, lookupD f.layersByName kv.2.name = some kv.2 ∧ kv.1 = kv.2.number) ∧
  (∀ kv ∈ f.layersByName, lookupD f.layers kv.2.number = some kv.2 ∧ kv.1 = kv.2.name)

/-- A technology of the first example device, carrying attribute `ATTRA`. -/
def techA : Technology :=
  { idn := 4, parent := some 2, name := "",
    attributes := [("ATTRA", { name := "ATTRA", parent := some 4 })] }

/-- First example device of the two-device deviceset. -/
def devA : Device :=
  { idn := 2, parent := some 1, name := "A", package := some "PKGA",
    technologies := .dict [("", techA)] }

/-- A technology of the second example device, carrying attribute `ATTRB`. -/
def techB : Technology :=
  { idn := 5, parent := some 3, name := "",
    attributes := [("ATTRB", { name := "ATTRB", parent := some 5 })] }

/-- Second example device of the two-device deviceset. -/
def devB : Device :=
  { idn := 3, parent := some 1, name := "B", package := some "PKGB",
    technologies := .dict [("", techB)] }

/-- A deviceset owning two packaged devices with distinct attributes. -/
def dsAB : Deviceset := { idn := 1, name := "DS", devices := [("A", devA), ("B", devB)] }

/-- A fresh `EagleFile()` (empty layer table). -/
def fileEmpty : EagleFile := { idn := 0 }

/-- A layer numbered 1 named `A`. -/
def layerA1 : Layer := { idn := 10, number := 1, name := "A" }

/-- A second layer also numbered 1, named `B`. -/
def layerB1 : Layer := { idn := 11, number := 1, name := "B" }

/-- The file obtained by adding `layerA1` and then the conflicting `layerB1`. -/
def fileAB : EagleFile := (fileEmpty.add_layer layerA1).add_layer layerB1

/-- A consistent two-layer file. -/
def fileGood : EagleFile :=
  (fileEmpty.add_layer { idn := 12, number := 1, name := "Top" }).add_layer
    { idn := 13, number := 16, name := "Bottom" }

/-- Example technology for the fully wired part. -/
def techW : Technology := { idn := 40, parent := some 30, name := "T1" }

/-- Example device for the fully wired part. -/
def devW : Device :=
  { idn := 30, parent := some 20, name := "D", package := some "P",
    technologies := .dict [("T1", techW)] }

/-- Example deviceset for the fully wired part. -/
def dsW : Deviceset := { idn := 20, parent := some 10, name := "DS", devices := [("D", devW)] }

/-- Example library for the fully wired part. -/
def libW : Library := { idn := 10, parent := some 1, name := "L", devicesets := [("DS", dsW)] }

/-- Example schematic root holding `libW`. -/
def schW : Schematic := { idn := 1, libraries := [("L", libW)] }

/-- A part whose library, deviceset and device resolve but whose technology
key does not. -/
def partW : Part :=
  { idn := 50, parent := some 1, name := "U1", library := "L", deviceset := "DS",
    device := "D", technology := some "MISSING" }

theorem edgesList_append (xs ys : List EFP) (i : Nat) :
    edgesList i (xs ++ ys) = edgesList i xs ++ edgesList i ys := by
  induction xs with
  | nil => simp [edgesList]
  | cons a xs ih =>
    obtain ⟨ci, cp, ck⟩ := a
    simp [edgesList, ih]

theorem check_sanityList_ok_iff (cs : List EFP) (i : Nat) :
    check_sanityList i cs = Except.ok () ↔
      ∀ p ∈ edgesList i cs, p.2.parentOf = some p.1 := by
  have main : ∀ (n : Nat) (cs : List EFP), sizeOf cs ≤ n → ∀ i : Nat,
      (check_sanityList i cs = Except.ok () ↔
        ∀ p ∈ edgesList i cs, p.2.parentOf = some p.1) := by
    intro n
    induction n with
    | zero =>
      intro cs h i
      exfalso
      cases cs with
      | nil => simp at h
      | cons a l => obtain ⟨ci, cp, ck⟩ := a; simp at h
    | succ n ih =>
      intro cs h i
      cases cs with
      | nil => simp [check_sanityList, edgesList]
      | cons a l =>
        obtain ⟨ci, cp, ck⟩ := a
        have hszc : sizeOf ck ≤ n := by simp at h; omega
        have hszl : sizeOf l ≤ n := by simp at h; omega
        by_cases hp : cp = some i
        · simp only [check_sanityList, hp, ne_eq, not_true_eq_false, if_false]
          rcases hcc : check_sanityList ci ck with e | u
          · constructor
            · intro habs; exact absurd habs (by simp)
            · intro hall
              have : check_sanityList ci ck = Except.ok () :=
                (ih ck hszc ci).mpr (by
                  intro p hpm
                  exact hall p (by simp [edgesList, hpm]))
              rw [hcc] at this; exact absurd this (by simp)
          · cases u
            have hckall : ∀ p ∈ edgesList ci ck, p.2.parentOf = some p.1 :=
              (ih ck hszc ci).mp hcc
            constructor
            · intro hok
              have hlall : ∀ p ∈ edgesList i l, p.2.parentOf = some p.1 :=
                (ih l hszl i).mp hok
              intro p hpm
              simp only [edgesList, List.mem_cons, List.mem_append] at hpm
              rcases hpm with h1 | h2 | h3
              · subst h1; simpa [EFP.parentOf] using hp
              · exact hckall p h2
              · exact hlall p h3
            · intro hall
              exact (ih l hszl i).mpr (by
                intro p hpm
                exact hall p (by simp [edgesList, hpm]))
        · simp only [check_sanityList, hp, ne_eq, not_false_eq_true, if_true]
          constructor
          · intro habs; exact absurd habs (by simp)
          · intro hall
            have := hall (i, EFP.mk ci cp ck) (by simp [edgesList])
            simp [EFP.parentOf] at this
            exact absurd this hp
  exact main (sizeOf cs) cs (Nat.le_refl _) i

theorem check_sanityList_error (cs : List EFP) (i : Nat) (e : PyError)
    (h : check_sanityList i cs = Except.error e) :
    ∃ p ∈ edgesList i cs, p.2.parentOf ≠ some p.1 ∧
      e = .highEagle (mismatchMsg p.1 p.2) := by
  have main : ∀ (n : Nat) (cs : List EFP), sizeOf cs ≤ n → ∀ (i : Nat) (e : PyError),
      check_sanityList i cs = Except.error e →
        ∃ p ∈ edgesList i cs, p.2.parentOf ≠ some p.1 ∧
          e = .highEagle (mismatchMsg p.1 p.2) := by
    intro n
    induction n with
    | zero =>
      intro cs h i e hrun
      exfalso
      cases cs with
      | nil => simp at h
      | cons a l => obtain ⟨ci, cp, ck⟩ := a; simp at h
    | succ n ih =>
      intro cs h i e hrun
      cases cs with
      | nil => simp [check_sanityList] at hrun
      | cons a l =>
        obtain ⟨ci, cp, ck⟩ := a
        have hszc : sizeOf ck ≤ n := by simp at h; omega
        have hszl : sizeOf l ≤ n := by simp at h; omega
        by_cases hp : cp = some i
        · simp only [check_sanityList, hp, ne_eq, not_true_eq_false, if_false] at hrun
          rcases hcc : check_sanityList ci ck with e' | u
          · rw [hcc] at hrun
            simp at hrun
            subst hrun
            obtain ⟨p, hpm, hbad, hmsg⟩ := ih ck hszc ci e' hcc
            exact ⟨p, by simp [edgesList, hpm], hbad, hmsg⟩
          · cases u
            rw [hcc] at hrun
            simp at hrun
            obtain ⟨p, hpm, hbad, hmsg⟩ := ih l hszl i e hrun
            exact ⟨p, by simp [edgesList, hpm], hbad, hmsg⟩
        · simp only [check_sanityList, hp, ne_eq, not_false_eq_true, if_true] at hrun
          refine ⟨(i, EFP.mk ci cp ck), by simp [edgesList], ?_, ?_⟩
          · simpa [EFP.parentOf] using hp
          · simp at hrun
            simp [hrun]
  exact main (sizeOf cs) cs (Nat.le_refl _) i e h

theorem check_sanity_ok_iff (t : EFP) :
    t.check_sanity = Except.ok () ↔ ∀ p ∈ t.edges, p.2.parentOf = some p.1 := by
  obtain ⟨i, pp, cs⟩ := t
  simpa [EFP.check_sanity, EFP.edges] using check_sanityList_ok_iff cs i

theorem check_sanity_error (t : EFP) (e : PyError) (h : t.check_sanity = Except.error e) :
    ∃ p ∈ t.edges, p.2.parentOf ≠ some p.1 ∧ e = .highEagle (mismatchMsg p.1 p.2) := by
  obtain ⟨i, pp, cs⟩ := t
  simp only [EFP.check_sanity] at h
  simpa [EFP.edges] using check_sanityList_error cs i e h

theorem addChild_edges (p c : EFP) :
    (p.addChild c).edges = p.edges ++ (p.idOf, c.setParent p.idOf) :: c.edges := by
  obtain ⟨i, pp, cs⟩ := p
  obtain ⟨ci, cp, ck⟩ := c
  simp [EFP.addChild, EFP.setParent, EFP.edges, EFP.idOf, EFP.parentOf, EFP.childrenOf,
    edgesList_append, edgesList]

theorem setParent_edges (c : EFP) (i : Nat) :
    (c.setParent i).edges = c.edges := by
  obtain ⟨ci, cp, ck⟩ := c
  simp [EFP.setParent, EFP.edges, EFP.idOf, EFP.childrenOf]

theorem lookupD_mem {κ α : Type} [DecidableEq κ] (m : List (κ × α)) (k : κ) (v : α)
    (h : lookupD m k = some v) : (k, v) ∈ m := by
  induction m with
  | nil => simp [lookupD] at h
  | cons kv rest ih =>
    obtain ⟨k0, v0⟩ := kv
    by_cases hk : k0 = k
    · subst hk
      simp [lookupD] at h
      simp [h]
    · simp [lookupD, hk] at h
      exact List.mem_cons_of_mem _ (ih h)

theorem lookupD_dictInsert_self {κ α : Type} [DecidableEq κ] (m : List (κ × α)) (k : κ) (v : α) :
    lookupD (dictInsert m k v) k = some v := by
  induction m with
  | nil => simp [dictInsert, lookupD]
  | cons kv rest ih =>
    obtain ⟨k0, v0⟩ := kv
    by_cases hk : k0 = k
    · subst hk; simp [dictInsert, lookupD]
    · simp [dictInsert, lookupD, hk, ih]

theorem lookupD_dictInsert_ne {κ α : Type} [DecidableEq κ] (m : List (κ × α)) (k k2 : κ) (v : α)
    (h : k2 ≠ k) : lookupD (dictInsert m k v) k2 = lookupD m k2 := by
  induction m with
  | nil => simp [dictInsert, lookupD, Ne.symm h]
  | cons kv rest ih =>
    obtain ⟨k0, v0⟩ := kv
    by_cases hk : k0 = k
    · subst hk
      simp [dictInsert, lookupD, Ne.symm h]
    · simp [dictInsert, lookupD, hk, ih]

/-- C6: `check_sanity` succeeds exactly when every reachable (owner, child)
pair of the tree has `child.parent` pointing at the owner; on failure the
raised `HighEagleError` carries the mismatch message identifying some
violating child; and a container `add` puts the child in the owner's
container with its `parent` set to the owner, preserving sanity. -/
theorem check_sanity_spec :
    (∀ t : EFP, t.check_sanity = Except.ok () ↔ ∀ p ∈ t.edges, p.2.parentOf = some p.1) ∧
    (∀ (t : EFP) (e : PyError), t.check_sanity = Except.error e →
      ∃ p ∈ t.edges, p.2.parentOf ≠ some p.1 ∧ e = PyError.highEagle (mismatchMsg p.1 p.2)) ∧
    (∀ p c : EFP, c.setParent p.idOf ∈ (p.addChild c).childrenOf ∧
      (c.setParent p.idOf).parentOf = some p.idOf ∧
      (p.check_sanity = Except.ok () → c.check_sanity = Except.ok () →
        (p.addChild c).check_sanity = Except.ok ())) := by
  refine ⟨check_sanity_ok_iff, check_sanity_error, ?_⟩
  intro p c
  refine ⟨?_, ?_, ?_⟩
  · obtain ⟨i, pp, cs⟩ := p
    simp [EFP.addChild, EFP.childrenOf]
  · simp [EFP.setParent, EFP.parentOf]
  · intro hp hc
    rw [check_sanity_ok_iff] at hp hc ⊢
    rw [addChild_edges]
    intro q hq
    simp only [List.mem_append, List.mem_cons] at hq
    rcases hq with h1 | h2 | h3
    · exact hp q h1
    · subst h2; simp [EFP.setParent, EFP.parentOf]
    · exact hc q h3

/-- Witness for C6 at a concrete tree: adding a fresh child to a sane owner
yields a sane tree. -/
theorem check_sanity_spec_witness :
    ((EFP.mk 0 none []).addChild (EFP.mk 1 none [])).check_sanity = Except.ok () :=
  (check_sanity_spec.2.2 (EFP.mk 0 none []) (EFP.mk 1 none [])).2.2
    (by simp [EFP.check_sanity, check_sanityList])
    (by simp [EFP.check_sanity, check_sanityList])

/-- C2 counterexample: `parseByType` maps an absent `constant_bool` raw value
to absence, not to `true` as the claim states. -/
theorem constant_bool_absent_counterexample :
    parseByType none "efp" "constant_bool" none = Except.ok none ∧
    parseByType none "efp" "constant_bool" none ≠ Except.ok (some (PyVal.bool true)) := by
  decide

/-- C2 (amended): the default-true boolean kind parses `"no"` to `false` and
every other *present* raw value to `true`, while an absent raw value stays
absent; unparse maps `false` to `"no"` and `true` to absence. -/
theorem constant_bool_coercion (ef ef2 : Option EagleFile) (es es2 : String) (s : String)
    (h : s ≠ "no") :
    parseByType ef es "constant_bool" (some "no") = Except.ok (some (PyVal.bool false)) ∧
    parseByType ef es "constant_bool" (some s) = Except.ok (some (PyVal.bool true)) ∧
    parseByType ef es "constant_bool" none = Except.ok none ∧
    unparseByType ef2 es2 "constant_bool" (some (PyVal.bool false))
      = Except.ok (some (PyVal.str "no")) ∧
    unparseByType ef2 es2 "constant_bool" (some (PyVal.bool true)) = Except.ok none := by
  refine ⟨by simp [parseByType], by simp [parseByType, h], by simp [parseByType],
    by simp [unparseByType, pyTruthy], by simp [unparseByType, pyTruthy]⟩

/-- Witness for C2 at the concrete raw value `"yes"`. -/
theorem constant_bool_coercion_witness :
    parseByType none "e" "constant_bool" (some "yes") = Except.ok (some (PyVal.bool true)) :=
  (constant_bool_coercion none none "e" "e" "yes" (by decide)).2.1

/-- C5: on a node whose ownership chain reaches no `EagleFile`
(`get_file()` is `None`), parsing or unparsing any present `layer_string`
value fails: the attribute access on the absent file raises. -/
theorem layer_string_detached (es es2 : String) (s : String) (v : PyVal) :
    parseByType none es "layer_string" (some s) =
      Except.error (.attributeError "'NoneType' object has no attribute 'layer_number_to_name'") ∧
    unparseByType none es2 "layer_string" (some v) =
      Except.error (.attributeError "'NoneType' object has no attribute 'layer_name_to_number'") := by
  exact ⟨by simp [parseByType], by simp [unparseByType]⟩

/-- C10: for every declared attribute kind, coercion of an absent value is
the identity on absence and raises nothing, in either direction. -/
theorem absent_value_coercion (ef : Option EagleFile) (es : String) (k : String)
    (hk : k ∈ (["str", "int", "float", "bool", "constant_bool", "layer_string"] : List String)) :
    parseByType ef es k none = Except.ok none ∧ unparseByType ef es k none = Except.ok none :=
  ⟨by simp [parseByType], by simp [unparseByType]⟩

/-- Witness for C10 at the `constant_bool` kind. -/
theorem absent_value_coercion_witness :
    parseByType none "e" "constant_bool" none = Except.ok none ∧
    unparseByType none "e" "constant_bool" none = Except.ok none :=
  absent_value_coercion none "e" "constant_bool" (by decide)

/-- C3 counterexample: adding a second layer that reuses number 1 is not
rejected — it returns a file whose number index now holds the new layer,
while the stale old name entry survives in the name index. -/
theorem add_layer_counterexample :
    lookupD fileAB.layers 1 = some { layerB1 with parent := some 0 } ∧
    lookupD fileAB.layers 1 ≠ some { layerA1 with parent := some 0 } ∧
    lookupD fileAB.layersByName "A" = some { layerA1 with parent := some 0 } ∧
    lookupD fileAB.layersByName "B" = some { layerB1 with parent := some 0 } := by
  decide

/-- C3 (amended): `add_layer` never rejects a conflict: it unconditionally
writes the (reparented) layer into both indices, overwriting any entry
under the same number or name and leaving entries under other keys
untouched, so a stale entry can survive in the other index. -/
theorem add_layer_overwrites (f : EagleFile) (l : Layer) :
    lookupD (f.add_layer l).layers l.number = some { l with parent := some f.idn } ∧
    lookupD (f.add_layer l).layersByName l.name = some { l with parent := some f.idn } ∧
    (∀ n : Int, n ≠ l.number → lookupD (f.add_layer l).layers n = lookupD f.layers n) ∧
    (∀ s : String, s ≠ l.name → lookupD (f.add_layer l).layersByName s = lookupD f.layersByName s) := by
  refine ⟨?_, ?_, ?_, ?_⟩
  · simp [EagleFile.add_layer, lookupD_dictInsert_self]
  · simp [EagleFile.add_layer, lookupD_dictInsert_self]
  · intro n hn
    simp [EagleFile.add_layer, lookupD_dictInsert_ne _ _ _ _ hn]
  · intro s hs
    simp [EagleFile.add_layer, lookupD_dictInsert_ne _ _ _ _ hs]

/-- Witness for C3 at a concrete file and layer. -/
theorem add_layer_overwrites_witness :
    lookupD (fileEmpty.add_layer layerA1).layers 1 = some { layerA1 with parent := some 0 } ∧
    lookupD (fileEmpty.add_layer layerA1).layers 5 = lookupD fileEmpty.layers 5 :=
  ⟨(add_layer_overwrites fileEmpty layerA1).1,
   (add_layer_overwrites fileEmpty layerA1).2.2.1 5 (by decide)⟩

/-- C7 counterexample: after two `add_layer` calls that reuse number 1, the
name `"A"` is present in the name index, yet the round trip returns `"B"`,
not `"A"` (and raises nothing). -/
theorem layer_round_trip_counterexample :
    (lookupD fileAB.layersByName "A").isSome = true ∧
    (fileAB.layer_name_to_number "A").bind fileAB.layer_number_to_name = Except.ok "B" ∧
    (fileAB.layer_name_to_number "A").bind fileAB.layer_number_to_name ≠ Except.ok "A" := by
  decide

/-- C7 (amended): on a file whose two layer indices are mutually consistent,
the round trip `layer_number_to_name(layer_name_to_number(name))` returns
`name` for every registered layer name; lookups of an absent number or
name fail with a `HighEagleError` naming the file. -/
theorem layer_round_trip (f : EagleFile) (hc : f.consistent) :
    (∀ (name : String) (L : Layer), lookupD f.layersByName name = some L →
      (f.layer_name_to_number name).bind f.layer_number_to_name = Except.ok name) ∧
    (∀ n : Int, lookupD f.layers n = none →
      f.layer_number_to_name n =
        Except.error (.highEagle ("No layer number " ++ toString n ++ " in " ++ pyStr f.filename))) ∧
    (∀ s : String, lookupD f.layersByName s = none →
      f.layer_name_to_number s =
        Except.error (.highEagle ("No layer named '" ++ s ++ "' in " ++ pyStr f.filename))) := by
  refine ⟨?_, ?_, ?_⟩
  · intro name L h
    have hmem := lookupD_mem f.layersByName name L h
    obtain ⟨hnum, hname⟩ := hc.2 (name, L) hmem
    simp only [EagleFile.layer_name_to_number, h]
    simp only [Except.bind, EagleFile.layer_number_to_name, hnum]
    rw [← hname]
  · intro n h
    simp [EagleFile.layer_number_to_name, h]
  · intro s h
    simp [EagleFile.layer_name_to_number, h]

/-- Witness for C7 at a concrete consistent two-layer file. -/
theorem layer_round_trip_witness :
    (fileGood.layer_name_to_number "Bottom").bind fileGood.layer_number_to_name
      = Except.ok "Bottom" :=
  (layer_round_trip fileGood (by constructor <;> decide)).1 "Bottom"
    { idn := 13, parent := some 0, number := 16, name := "Bottom" } (by decide)

/-- C4 counterexample: on validation failure `write` persists the broken
output to the path with `".broken.xml"` appended, not `".broken"`. -/
theorem write_broken_counterexample :
    (write (EFP.mk 0 none []) false "out.sch" "").1 = ["out.sch.broken.xml"] ∧
    (write (EFP.mk 0 none []) false "out.sch" "").1 ≠ ["out.sch" ++ ".broken"] := by
  have h : write (EFP.mk 0 none []) false "out.sch" "" =
      (["out.sch.broken.xml"],
        some (.highEagle ("element tree does not validate" ++ ""))) := by
    simp [write, EFP.check_sanity, check_sanityList]
  rw [h]
  exact ⟨rfl, by decide⟩

/-- C4 (amended): when save-time validation of a sane tree fails, the
invalid output is written to `filename + ".broken.xml"` and a
`HighEagleError` is raised; when validation succeeds the output goes to
the requested path and nothing is raised. -/
theorem write_spec (t : EFP) (fn diag : String) (hs : t.check_sanity = Except.ok ()) :
    write t false fn diag =
      ([fn ++ ".broken.xml"],
        some (.highEagle ("element tree does not validate" ++ diag))) ∧
    write t true fn diag = ([fn], none) := by
  constructor <;> simp [write, hs]

/-- Witness for C4 at a concrete sane tree. -/
theorem write_spec_witness :
    write (EFP.mk 0 none []) true "out.sch" "" = (["out.sch"], none) :=
  (write_spec (EFP.mk 0 none []) "out.sch" ""
    (by simp [EFP.check_sanity, check_sanityList])).2

/-- C8: loading ill-formed XML fails with `EagleFormatError`; a parsed
document failing DTD validation aborts the load in strict mode but leaves
the load unchanged in best-effort mode; and any load that returns a file
has run the full recursive sanity check on it successfully. -/
theorem from_file_spec :
    (∀ (dv be : Bool) (fn diag : String) (t : EFP),
      from_file false dv be fn diag t = Except.error (.eagleFormat ("Eagle file '" ++ fn
        ++ "' doesn't look like XML eagle file.  Try resaving with a newer version of eagle."))) ∧
    (∀ (fn diag : String) (t : EFP),
      from_file true false false fn diag t =
        Except.error (.eagleFormat ("Eagle file opened as '" ++ fn
          ++ "' is invalid on disk: " ++ diag))) ∧
    (∀ (fn diag : String) (t : EFP),
      from_file true false true fn diag t = from_file true true true fn diag t) ∧
    (∀ (wf dv be : Bool) (fn diag : String) (t ef : EFP),
      from_file wf dv be fn diag t = Except.ok ef →
        ef.check_sanity = Except.ok () ∧ ef = t) := by
  refine ⟨?_, ?_, ?_, ?_⟩
  · intro dv be fn diag t
    simp [from_file]
  · intro fn diag t
    simp [from_file]
  · intro fn diag t
    simp [from_file]
  · intro wf dv be fn diag t ef h
    unfold from_file at h
    split at h
    · exact absurd h (by simp)
    · split at h
      · exact absurd h (by simp)
      · split at h
        · split at h
          · exact absurd h (by simp)
          · rename_i hok
            simp at h
            subst h
            exact ⟨hok, rfl⟩
        · exact absurd h (by simp)

/-- Witness for C8: a concrete successful load implies its tree passed the
sanity check. -/
theorem from_file_spec_witness :
    (EFP.mk 0 none []).check_sanity = Except.ok () ∧ EFP.mk 0 none [] = EFP.mk 0 none [] :=
  from_file_spec.2.2.2 true true true "a.sch" "" (EFP.mk 0 none []) (EFP.mk 0 none [])
    (by
      have hsuf : ("a.sch".takeRight 4 = ".sch") := by decide
      simp [from_file, hsuf, EFP.check_sanity, check_sanityList])

/-- C1 counterexample: externalizing a deviceset with two devices does not
migrate the union of the prior devices' attributes — the second device's
attribute `ATTRB` is present before and gone after, while the call returns
without error. -/
theorem convertToExternal_counterexample :
    "ATTRB" ∈ dsAB.allAttrNames ∧
    "ATTRB" ∉ (dsAB.convertToExternal).1.allAttrNames ∧
    (dsAB.convertToExternal).2 = none := by
  decide

/-- C1 (amended): on a deviceset with devices present (first device's
technology slot map-shaped), `convertToExternal` leaves exactly one device,
which is the *first* prior device (same identity) renamed to `""` with
package `"_EXTERNAL_"` and cleared connects; its technologies are the
first device's, each gaining the one marker attribute `"_EXTERNAL_"` —
other devices' attributes are dropped.  On a deviceset with zero devices
it inserts the synthesized package-less device but then raises
`AttributeError` (list stored in the map-typed technologies slot), so no
marker attribute is ever attached. -/
theorem convertToExternal_correct :
    (∀ (ds : Deviceset) (k : String) (d0 : Device) (rest : List (String × Device))
        (ts : List (String × Technology)),
      ds.devices = (k, d0) :: rest →
      d0.technologies = TechsField.dict ts →
      (ds.convertToExternal).2 = none ∧
      ∃ d : Device,
        (ds.convertToExternal).1.devices = [("", d)] ∧
        d.idn = d0.idn ∧ d.name = "" ∧ d.package = some "_EXTERNAL_" ∧
        d.connects = [] ∧ d.parent = some ds.idn ∧
        d.technologies =
          TechsField.dict (ts.map (fun kt => (kt.1, kt.2.add_attribute markerAttribute)))) ∧
    (∀ ds : Deviceset, ds.devices = [] →
      (ds.convertToExternal).2 =
        some (PyError.attributeError "'list' object has no attribute 'values'") ∧
      ∃ d : Device,
        (ds.convertToExternal).1.devices = [("", d)] ∧
        d.name = "" ∧ d.package = some "_EXTERNAL_" ∧
        d.technologies.allAttrNames = []) := by
  constructor
  · intro ds k d0 rest ts h1 h2
    have key : ds.convertToExternal =
        (Deviceset.mk ds.idn ds.parent ds.name
          [("", Device.mk d0.idn (some ds.idn) "" (some "_EXTERNAL_") []
            (TechsField.dict (ts.map (fun kt => (kt.1, kt.2.add_attribute markerAttribute)))))],
          none) := by
      unfold Deviceset.convertToExternal
      rw [h1]
      simp [h2, Deviceset.add_device, dictInsert]
    rw [key]
    exact ⟨rfl, _, rfl, rfl, rfl, rfl, rfl, rfl, rfl⟩
  · intro ds h1
    have key : ds.convertToExternal =
        (Deviceset.mk ds.idn ds.parent ds.name
          [("", Device.mk 0 (some ds.idn) "" (some "_EXTERNAL_") []
            (TechsField.pylist [Technology.mk 0 none "" []]))],
          some (PyError.attributeError "'list' object has no attribute 'values'")) := by
      unfold Deviceset.convertToExternal
      rw [h1]
      simp [h1, Deviceset.add_device, dictInsert]
    rw [key]
    exact ⟨rfl, _, rfl, rfl, rfl, by simp [TechsField.allAttrNames]⟩

/-- Witness for C1 at the concrete two-device and empty devicesets. -/
theorem convertToExternal_correct_witness :
    (dsAB.convertToExternal).2 = none ∧
    ((Deviceset.mk 9 none "E" []).convertToExternal).2 =
      some (PyError.attributeError "'list' object has no attribute 'values'") :=
  ⟨(convertToExternal_correct.1 dsAB "A" devA [("B", devB)] [("", techA)]
      (by decide) (by decide)).1,
   (convertToExternal_correct.2 (Deviceset.mk 9 none "E" []) rfl).1⟩

/-- C9: `Part.check_sanity` raises a `HighEagleError` naming the part and
the missing key when the library, deviceset or device key fails to resolve
through `root.libraries → devicesets → devices`; when all three resolve
(and the part's children are properly parented) it passes, and the
`technology` key is never consulted. -/
theorem part_check_sanity_spec :
    (∀ (root : Schematic) (p : Part), Part.find_library root p = none →
      Part.check_sanity root p =
        Except.error (.highEagle ("Library '" ++ p.library ++ "' missing for " ++ p.name))) ∧
    (∀ (root : Schematic) (p : Part) (lib : Library),
      Part.find_library root p = some lib → lookupD lib.devicesets p.deviceset = none →
      Part.check_sanity root p =
        Except.error (.highEagle ("DeviceSet '" ++ lib.name ++ ":" ++ p.deviceset
          ++ "' missing for " ++ p.name))) ∧
    (∀ (root : Schematic) (p : Part) (lib : Library) (ds : Deviceset),
      Part.find_library root p = some lib → lookupD lib.devicesets p.deviceset = some ds →
      lookupD ds.devices p.device = none →
      Part.check_sanity root p =
        Except.error (.highEagle ("Device '" ++ lib.name ++ ":" ++ ds.name ++ ":" ++ p.device
          ++ "' missing for " ++ p.name))) ∧
    (∀ (root : Schematic) (p : Part) (lib : Library) (ds : Deviceset) (d : Device),
      Part.find_library root p = some lib → lookupD lib.devicesets p.deviceset = some ds →
      lookupD ds.devices p.device = some d →
      (∀ q ∈ p.childParents, q = some p.idn) →
      Part.check_sanity root p = Except.ok () ∧
      (∀ t : Option String,
        Part.check_sanity root { p with technology := t } = Part.check_sanity root p)) := by
  refine ⟨?_, ?_, ?_, ?_⟩
  · intro root p h
    simp [Part.check_sanity, h]
  · intro root p lib hlib hds
    simp [Part.check_sanity, Part.find_deviceset, Part.libName, hlib, hds]
  · intro root p lib ds hlib hds hdev
    simp [Part.check_sanity, Part.find_deviceset, Part.find_device, Part.libName,
      Part.dsName, hlib, hds, hdev]
  · intro root p lib ds d hlib hds hdev hkids
    constructor
    · have hall : p.childParents.all (fun q => decide (q = some p.idn)) = true := by
        rw [List.all_eq_true]
        intro q hq
        exact decide_eq_true (hkids q hq)
      simp [Part.check_sanity, Part.find_deviceset, Part.find_device, hlib, hds, hdev, hall]
    · intro t
      rfl

/-- Witness for C9 at a fully wired part whose technology key is absent. -/
theorem part_check_sanity_witness :
    Part.find_technology schW partW = Except.ok none ∧
    Part.check_sanity schW partW = Except.ok () :=
  ⟨by decide,
   (part_check_sanity_spec.2.2.2 schW partW libW dsW devW (by decide) (by decide)
      (by decide) (by decide)).1⟩

end HighEagle
